import Mathlib

/-!
# Verification of the collie CIDOC CRM validation core

A shallow embedding of the schema registry (`collie/properties.py`), the
quantifier validator (`collie/validators/quantifiers.py`), the entity data
model (`collie/models/base.py`) and the class-hierarchy code generator
(`collie/codegen/generate_models.py`), together with proofs of the
specified properties.  The typing validator module
(`collie/validators/typing_rules.py`) is imported by the repository tests
but its source file is not part of the snapshot; it is modelled from the
specification and marked as such below.
-/

namespace Collie

/-- A Python attribute value as it occurs on a CRM entity: `pynone` models
Python `None`, `pystr` a scalar shortcut value (an entity id), `pylist` a
list-valued field.  Absence of an attribute (`hasattr` false) is modelled
by the attribute name being missing from the attribute list. -/
inductive PyVal where
  | pynone : PyVal
  | pystr (s : String) : PyVal
  | pylist (xs : List String) : PyVal
deriving DecidableEq, Repr

/-- Embedding of `CRMEntity` from `models/base.py`: every entity carries `id` and
`class_code`; the remaining pydantic fields, including the class-specific
shortcut fields, are modelled as a name-to-value association list so that
the dynamic `hasattr`/`getattr` access in `_get_property_values` can be
embedded directly. -/
structure CRMEntity where
  id : String
  class_code : String
  attrs : List (String × PyVal) := []
deriving DecidableEq, Repr

/-- Embedding of `ValidationSeverity` from `validators/quantifiers.py`
(WARN / RAISE / IGNORE). -/
inductive ValidationSeverity where
  | warn
  | raise
  | ignore
deriving DecidableEq, Repr

/-- The exceptions the quantifier validator can propagate: a
`CRMValidationError` raised by `_handle_violation` under RAISE severity, or
a Python `ValueError` raised by `_parse_quantifier` on a malformed
quantifier string.  Under WARN severity `_handle_violation` logs and calls
`warnings.warn`, which under the default Python warning filters returns
normally without raising, so that path is a normal return. -/
inductive PyExc where
  | validationError (msg : String)
  | valueError (msg : String)
deriving DecidableEq, Repr

/-- One entry of the `P` registry dictionary in `properties.py`. -/
structure PropSpec where
  label : String
  domain : String
  range : String
  inverse : String
  quantifier : String
  aliases : List String
  notes : String
deriving DecidableEq, Repr

/-- First-match association lookup: the embedding of a lookup in a Python
dict built from the listed key-value pairs (all keys are distinct, so
first match is the match). -/
def assocFind {α : Type} (k : String) : List (String × α) → Option α
  | [] => none
  | (k2, v) :: rest => if k = k2 then some v else assocFind k rest

/-- The `P` registry dictionary of `properties.py`, in source order. -/
def P_list : List (String × PropSpec) := [
  ("P1", ⟨"is identified by", "E1", "E41", "P1i", "0..*", ["IS_IDENTIFIED_BY"], "Identifies an entity with an appellation"⟩),
  ("P2", ⟨"has type", "E1", "E55", "P2i", "0..*", ["HAS_TYPE"], "Assigns a type to an entity"⟩),
  ("P3", ⟨"has note", "E1", "E62", "P3i", "0..*", ["HAS_NOTE"], "Adds a textual note to an entity"⟩),
  ("P4", ⟨"has time-span", "E2", "E52", "P4i", "0..1", ["HAS_TIME_SPAN"], "Associates a temporal entity with its time-span"⟩),
  ("P7", ⟨"took place at", "E5", "E53", "P7i", "0..*", ["TOOK_PLACE_AT"], "Specifies where an event took place"⟩),
  ("P11", ⟨"had participant", "E5", "E39", "P11i", "0..*", ["HAD_PARTICIPANT"], "Identifies participants in an event"⟩),
  ("P53", ⟨"has current or former location", "E18", "E53", "P53i", "0..*", ["HAS_CURRENT_LOCATION"], "Specifies the current or former location of a physical thing"⟩),
  ("P79", ⟨"beginning is qualified by", "E52", "E61", "P79i", "0..1", ["BEGIN_OF_THE_BEGIN"], "Qualifies the beginning of a time-span"⟩),
  ("P80", ⟨"end is qualified by", "E52", "E61", "P80i", "0..1", ["END_OF_THE_END"], "Qualifies the end of a time-span"⟩),
  ("P108", ⟨"was produced by", "E22", "E12", "P108i", "0..1", ["WAS_PRODUCED_BY"], "Links a human-made object to its production event"⟩),
  ("P108i", ⟨"produced", "E12", "E22", "P108", "0..*", ["PRODUCED"], "Inverse of was produced by"⟩),
  ("P1i", ⟨"identifies", "E41", "E1", "P1", "0..*", ["IDENTIFIES"], "Inverse of is identified by"⟩),
  ("P2i", ⟨"is type of", "E55", "E1", "P2", "0..*", ["IS_TYPE_OF"], "Inverse of has type"⟩),
  ("P3i", ⟨"is note of", "E62", "E1", "P3", "0..*", ["IS_NOTE_OF"], "Inverse of has note"⟩),
  ("P4i", ⟨"is time-span of", "E52", "E2", "P4", "0..*", ["IS_TIME_SPAN_OF"], "Inverse of has time-span"⟩),
  ("P7i", ⟨"witnessed", "E53", "E5", "P7", "0..*", ["WITNESSED"], "Inverse of took place at"⟩),
  ("P11i", ⟨"participated in", "E39", "E5", "P11", "0..*", ["PARTICIPATED_IN"], "Inverse of had participant"⟩),
  ("P53i", ⟨"is current or former location of", "E53", "E18", "P53", "0..*", ["IS_CURRENT_LOCATION_OF"], "Inverse of has current or former location"⟩),
  ("P79i", ⟨"qualifies beginning of", "E61", "E52", "P79", "0..*", ["QUALIFIES_BEGINNING_OF"], "Inverse of beginning is qualified by"⟩),
  ("P80i", ⟨"qualifies end of", "E61", "E52", "P80", "0..*", ["QUALIFIES_END_OF"], "Inverse of end is qualified by"⟩),
  ("P5", ⟨"consists of", "E18", "E18", "P5i", "0..*", ["CONSISTS_OF"], "Physical thing consists of other physical things"⟩),
  ("P5i", ⟨"forms part of", "E18", "E18", "P5", "0..*", ["FORMS_PART_OF"], "Inverse of consists of"⟩),
  ("P8", ⟨"took place on or before", "E5", "E61", "P8i", "0..*", ["TOOK_PLACE_ON_OR_BEFORE"], "Event took place on or before a specific time"⟩),
  ("P8i", ⟨"was the latest time of", "E61", "E5", "P8", "0..*", ["WAS_THE_LATEST_TIME_OF"], "Inverse of took place on or before"⟩),
  ("P9", ⟨"consists of", "E4", "E4", "P9i", "0..*", ["CONSISTS_OF"], "Period consists of other periods"⟩),
  ("P9i", ⟨"forms part of", "E4", "E4", "P9", "0..*", ["FORMS_PART_OF"], "Inverse of consists of"⟩),
  ("P10", ⟨"falls within", "E4", "E4", "P10i", "0..*", ["FALLS_WITHIN"], "Period falls within another period"⟩),
  ("P10i", ⟨"contains", "E4", "E4", "P10", "0..*", ["CONTAINS"], "Inverse of falls within"⟩),
  ("P12", ⟨"occurred in the presence of", "E5", "E77", "P12i", "0..*", ["OCCURRED_IN_THE_PRESENCE_OF"], "Event occurred in the presence of a persistent item"⟩),
  ("P12i", ⟨"was present at", "E77", "E5", "P12", "0..*", ["WAS_PRESENT_AT"], "Inverse of occurred in the presence of"⟩),
  ("P13", ⟨"destroyed", "E6", "E18", "P13i", "0..*", ["DESTROYED"], "Destruction event destroyed a physical thing"⟩),
  ("P13i", ⟨"was destroyed by", "E18", "E6", "P13", "0..*", ["WAS_DESTROYED_BY"], "Inverse of destroyed"⟩),
  ("P14", ⟨"carried out by", "E7", "E39", "P14i", "0..*", ["CARRIED_OUT_BY"], "Activity was carried out by an actor"⟩),
  ("P14i", ⟨"performed", "E39", "E7", "P14", "0..*", ["PERFORMED"], "Inverse of carried out by"⟩),
  ("P15", ⟨"was influenced by", "E7", "E1", "P15i", "0..*", ["WAS_INFLUENCED_BY"], "Activity was influenced by another entity"⟩),
  ("P15i", ⟨"influenced", "E1", "E7", "P15", "0..*", ["INFLUENCED"], "Inverse of was influenced by"⟩),
  ("P16", ⟨"used specific object", "E7", "E19", "P16i", "0..*", ["USED_SPECIFIC_OBJECT"], "Activity used a specific physical object"⟩),
  ("P16i", ⟨"was used for", "E19", "E7", "P16", "0..*", ["WAS_USED_FOR"], "Inverse of used specific object"⟩),
  ("P17", ⟨"was motivated by", "E7", "E1", "P17i", "0..*", ["WAS_MOTIVATED_BY"], "Activity was motivated by another entity"⟩),
  ("P17i", ⟨"motivated", "E1", "E7", "P17", "0..*", ["MOTIVATED"], "Inverse of was motivated by"⟩),
  ("P19", ⟨"was intended use", "E7", "E55", "P19i", "0..*", ["WAS_INTENDED_USE"], "Activity was intended for a specific use"⟩),
  ("P19i", ⟨"was use of", "E55", "E7", "P19", "0..*", ["WAS_USE_OF"], "Inverse of was intended use"⟩),
  ("P20", ⟨"had specific purpose", "E7", "E5", "P20i", "0..*", ["HAD_SPECIFIC_PURPOSE"], "Activity had a specific purpose"⟩),
  ("P20i", ⟨"was purpose of", "E5", "E7", "P20", "0..*", ["WAS_PURPOSE_OF"], "Inverse of had specific purpose"⟩),
  ("P21", ⟨"had general purpose", "E7", "E55", "P21i", "0..*", ["HAD_GENERAL_PURPOSE"], "Activity had a general purpose"⟩),
  ("P21i", ⟨"was purpose of", "E55", "E7", "P21", "0..*", ["WAS_PURPOSE_OF"], "Inverse of had general purpose"⟩),
  ("P22", ⟨"transferred title to", "E8", "E39", "P22i", "0..*", ["TRANSFERRED_TITLE_TO"], "Acquisition transferred title to an actor"⟩),
  ("P22i", ⟨"acquired title through", "E39", "E8", "P22", "0..*", ["ACQUIRED_TITLE_THROUGH"], "Inverse of transferred title to"⟩),
  ("P23", ⟨"transferred title from", "E8", "E39", "P23i", "0..*", ["TRANSFERRED_TITLE_FROM"], "Acquisition transferred title from an actor"⟩),
  ("P23i", ⟨"surrendered title through", "E39", "E8", "P23", "0..*", ["SURRENDERED_TITLE_THROUGH"], "Inverse of transferred title from"⟩),
  ("P24", ⟨"transferred title of", "E8", "E18", "P24i", "0..*", ["TRANSFERRED_TITLE_OF"], "Acquisition transferred title of a physical thing"⟩),
  ("P24i", ⟨"changed ownership through", "E18", "E8", "P24", "0..*", ["CHANGED_OWNERSHIP_THROUGH"], "Inverse of transferred title of"⟩),
  ("P25", ⟨"moved", "E9", "E18", "P25i", "0..*", ["MOVED"], "Move event moved a physical thing"⟩),
  ("P25i", ⟨"moved by", "E18", "E9", "P25", "0..*", ["MOVED_BY"], "Inverse of moved"⟩),
  ("P26", ⟨"moved to", "E9", "E53", "P26i", "0..*", ["MOVED_TO"], "Move event moved to a place"⟩),
  ("P26i", ⟨"was destination of", "E53", "E9", "P26", "0..*", ["WAS_DESTINATION_OF"], "Inverse of moved to"⟩),
  ("P27", ⟨"moved from", "E9", "E53", "P27i", "0..*", ["MOVED_FROM"], "Move event moved from a place"⟩),
  ("P27i", ⟨"was origin of", "E53", "E9", "P27", "0..*", ["WAS_ORIGIN_OF"], "Inverse of moved from"⟩),
  ("P28", ⟨"custody surrendered by", "E10", "E39", "P28i", "0..*", ["CUSTODY_SURRENDERED_BY"], "Transfer of custody surrendered by an actor"⟩),
  ("P28i", ⟨"surrendered custody through", "E39", "E10", "P28", "0..*", ["SURRENDERED_CUSTODY_THROUGH"], "Inverse of custody surrendered by"⟩),
  ("P29", ⟨"custody received by", "E10", "E39", "P29i", "0..*", ["CUSTODY_RECEIVED_BY"], "Transfer of custody received by an actor"⟩),
  ("P29i", ⟨"received custody through", "E39", "E10", "P29", "0..*", ["RECEIVED_CUSTODY_THROUGH"], "Inverse of custody received by"⟩),
  ("P30", ⟨"transferred custody of", "E10", "E18", "P30i", "0..*", ["TRANSFERRED_CUSTODY_OF"], "Transfer of custody transferred custody of a physical thing"⟩),
  ("P30i", ⟨"custody transferred through", "E18", "E10", "P30", "0..*", ["CUSTODY_TRANSFERRED_THROUGH"], "Inverse of transferred custody of"⟩)]

/-- The `DOMAIN` lookup table of `properties.py` (class code to the codes
of the properties declared with that domain), in source order. -/
def DOMAIN_list : List (String × List String) := [
  ("E1", ["P1", "P2", "P3", "P15i", "P17i"]),
  ("E2", ["P4"]),
  ("E5", ["P7", "P11", "P8", "P12", "P20i"]),
  ("E18", ["P53", "P5", "P5i", "P13i", "P24i", "P25i", "P30i"]),
  ("E52", ["P79", "P80", "P4i"]),
  ("E22", ["P108"]),
  ("E12", ["P108i"]),
  ("E41", ["P1i"]),
  ("E55", ["P2i", "P19i", "P21i"]),
  ("E62", ["P3i"]),
  ("E53", ["P7i", "P53i", "P26i", "P27i"]),
  ("E39", ["P11i", "P14i", "P22i", "P23i", "P28i", "P29i"]),
  ("E61", ["P79i", "P80i", "P8i"]),
  ("E4", ["P9", "P9i", "P10", "P10i"]),
  ("E77", ["P12i"]),
  ("E6", ["P13"]),
  ("E7", ["P14", "P15", "P16", "P17", "P19", "P20", "P21"]),
  ("E19", ["P16i"]),
  ("E8", ["P22", "P23", "P24"]),
  ("E9", ["P25", "P26", "P27"]),
  ("E10", ["P28", "P29", "P30"])]

/-- All property codes that appear in some `DOMAIN` entry. -/
def allDomainCodes : List String := (DOMAIN_list.map Prod.snd).flatten

/-- Prepend a character to the first part of a split result (used by
`splitDD` to extend the part currently being accumulated). -/
def consHead (c : Char) : List (List Char) → List (List Char)
  | part :: parts => (c :: part) :: parts
  | [] => [[c]]

/-- Python `str.split("..")` acting on the character list of a string:
leftmost, non-overlapping splitting on the two-character separator. -/
def splitDD : List Char → List (List Char)
  | [] => [[]]
  | [c] => [[c]]
  | c1 :: c2 :: rest =>
    if c1 = '.' ∧ c2 = '.' then [] :: splitDD rest
    else consHead c1 (splitDD (c2 :: rest))

/-- Python substring test for the two-dot separator, embedding the
membership check performed on the quantifier string. -/
def hasDD : List Char → Bool
  | [] => false
  | [_] => false
  | c1 :: c2 :: rest => (c1 = '.' && c2 = '.') || hasDD (c2 :: rest)

/-- Codepoints of the characters CPython treats as whitespace when
stripping both ends of the string passed to `int()` (the
Py_UNICODE_ISSPACE set, the same predicate as `str.isspace`). -/
def pyWhitespaceCodes : List Nat :=
  [0x9, 0xA, 0xB, 0xC, 0xD, 0x1C, 0x1D, 0x1E, 0x1F, 0x20, 0x85, 0xA0,
   0x1680, 0x2000, 0x2001, 0x2002, 0x2003, 0x2004, 0x2005, 0x2006, 0x2007,
   0x2008, 0x2009, 0x200A, 0x2028, 0x2029, 0x202F, 0x205F, 0x3000]

/-- Python whitespace test on a character. -/
def isPyWs (c : Char) : Bool := pyWhitespaceCodes.contains c.toNat

/-- Start codepoints of the 66 runs of ten consecutive codepoints that
form the Unicode Nd (decimal digit) category (Unicode data as shipped
with CPython 3.11); `int()` accepts exactly these characters as digits,
each valued by its offset within its run. -/
def ndRangeStarts : List Nat :=
  [0x30, 0x660, 0x6F0, 0x7C0, 0x966, 0x9E6, 0xA66, 0xAE6, 0xB66, 0xBE6,
   0xC66, 0xCE6, 0xD66, 0xDE6, 0xE50, 0xED0, 0xF20, 0x1040, 0x1090,
   0x17E0, 0x1810, 0x1946, 0x19D0, 0x1A80, 0x1A90, 0x1B50, 0x1BB0,
   0x1C40, 0x1C50, 0xA620, 0xA8D0, 0xA900, 0xA9D0, 0xA9F0, 0xAA50,
   0xABF0, 0xFF10, 0x104A0, 0x10D30, 0x11066, 0x110F0, 0x11136, 0x111D0,
   0x112F0, 0x11450, 0x114D0, 0x11650, 0x116C0, 0x11730, 0x118E0,
   0x11950, 0x11C50, 0x11D50, 0x11DA0, 0x16A60, 0x16AC0, 0x16B50,
   0x1D7CE, 0x1D7D8, 0x1D7E2, 0x1D7EC, 0x1D7F6, 0x1E140, 0x1E2F0,
   0x1E950, 0x1FBF0]

/-- The decimal value CPython assigns to a character during `int()`
conversion: its offset inside an Nd run, else `none`. -/
def decDigit? (c : Char) : Option Nat :=
  match ndRangeStarts.find? (fun s => decide (s ≤ c.toNat ∧ c.toNat < s + 10)) with
  | some s => some (c.toNat - s)
  | none => none

/-- Strip Python whitespace from both ends of a character list (what
`int()` does before parsing). -/
def pyStrip (s : List Char) : List Char :=
  ((s.dropWhile isPyWs).reverse.dropWhile isPyWs).reverse

/-- No two adjacent underscores occur in the list. -/
def noDoubleUnd : List Char → Bool
  | c1 :: c2 :: rest => !(c1 == '_' && c2 == '_') && noDoubleUnd (c2 :: rest)
  | _ => true

/-- The digit-part grammar of a Python integer string,
`digit (["_"] digit)*`: non-empty, does not start or end with an
underscore, has no two adjacent underscores (underscores are allowed only
between digits), and every character other than an underscore is an Nd
decimal digit. -/
def validDigitPart (l : List Char) : Bool :=
  !l.isEmpty &&
  (match l.head? with | some c => c != '_' | none => false) &&
  (match l.getLast? with | some c => c != '_' | none => false) &&
  noDoubleUnd l &&
  (l.filter (fun c => c != '_')).all (fun c => (decDigit? c).isSome)

/-- Value of a digit part: underscores removed, digit values folded in
base ten; `none` when the grammar is violated. -/
def digitRun (l : List Char) : Option Nat :=
  if validDigitPart l then
    some ((l.filter (fun c => c != '_')).foldl
      (fun acc c => 10 * acc + (decDigit? c).getD 0) 0)
  else none

/-- Python `int(str)`: strip Python whitespace from both ends, accept at
most one leading sign, then require the digit-part grammar
`digit (["_"] digit)*` over Unicode decimal digits; everything else
raises `ValueError` (modelled as `none`). -/
def pyInt (s : List Char) : Option Int :=
  match pyStrip s with
  | [] => none
  | c :: rest =>
    if c = '-' then (digitRun rest).map (fun n => -(Int.ofNat n))
    else if c = '+' then (digitRun rest).map (fun n => Int.ofNat n)
    else (digitRun (c :: rest)).map (fun n => Int.ofNat n)

/-- Embedding of `_parse_quantifier` from `validators/quantifiers.py`: raises `ValueError`
when the string has no ".." separator, when splitting on ".." does not
yield exactly two parts (Python tuple unpacking), or when a bound part is
not an integer; a max part "*" means unbounded (`none`). -/
def _parse_quantifier (quantifier : String) : Except PyExc (Int × Option Int) :=
  if hasDD quantifier.data = false then
    .error (.valueError ("Invalid quantifier format: " ++ quantifier))
  else
    match splitDD quantifier.data with
    | [min_part, max_part] =>
      match pyInt min_part with
      | none => .error (.valueError "invalid literal for int()")
      | some min_count =>
        if max_part = ['*'] then .ok (min_count, none)
        else
          match pyInt max_part with
          | none => .error (.valueError "invalid literal for int()")
          | some max_count => .ok (min_count, some max_count)
    | _ => .error (.valueError "too many values to unpack")

/-- Embedding of `_handle_violation` from `validators/quantifiers.py`: under RAISE severity
raise a `CRMValidationError` carrying the message, entity id and class
code; under WARN log and call `warnings.warn`, which under default warning
filters returns normally (no exception); IGNORE never reaches this
function (handled by the caller) and is likewise a normal return. -/
def _handle_violation (message : String) (severity : ValidationSeverity)
    (entity : CRMEntity) (_p_code : String) : Except PyExc Unit :=
  let full_message := message ++ " (Entity: " ++ entity.id ++ ", Class: " ++ entity.class_code ++ ")"
  match severity with
  | .raise => .error (.validationError full_message)
  | .warn => .ok ()
  | .ignore => .ok ()

/-- Embedding of `enforce_quantifier` from `validators/quantifiers.py`: IGNORE returns
immediately; an unknown property code is logged and skipped; a domain
mismatch between the class code of the entity and the declared
domain is logged and skipped; otherwise the quantifier is parsed (a parse
failure propagates as `ValueError`) and the count of `values` is checked
against the minimum and then the maximum, each violation going through
`_handle_violation`.  The Python expression
`len(values) if values else 0` equals `len(values)` in both branches and
is embedded literally. -/
def enforce_quantifier (entity : CRMEntity) (p_code : String)
    (values : List String) (severity : ValidationSeverity) : Except PyExc Unit :=
  if severity = .ignore then .ok ()
  else
    match assocFind p_code P_list with
    | none => .ok ()
    | some spec =>
      if entity.class_code ≠ spec.domain then .ok ()
      else
        match _parse_quantifier spec.quantifier with
        | .error e => .error e
        | .ok (min_count, max_count) =>
          let actual_count : Int := if values.isEmpty then 0 else (values.length : Int)
          let step1 : Except PyExc Unit :=
            if actual_count < min_count then
              _handle_violation ("Property " ++ p_code ++ " requires at least "
                ++ toString min_count ++ " values, got " ++ toString actual_count)
                severity entity p_code
            else .ok ()
          match step1 with
          | .error e => .error e
          | .ok _ =>
            match max_count with
            | none => .ok ()
            | some mx =>
              if actual_count > mx then
                _handle_violation ("Property " ++ p_code ++ " allows at most "
                  ++ toString mx ++ " values, got " ++ toString actual_count)
                  severity entity p_code
              else .ok ()

/-- The `p_to_field` dictionary of `_get_property_values` mapping P-codes
to entity field names. -/
def p_to_field : List (String × String) := [
  ("P1", "identifiers"),
  ("P2", "type"),
  ("P3", "notes"),
  ("P4", "timespan"),
  ("P7", "took_place_at"),
  ("P11", "participants"),
  ("P53", "current_location"),
  ("P79", "begin_of_the_begin"),
  ("P80", "end_of_the_end"),
  ("P108", "produced_by")]

/-- Embedding of `_get_property_values` from `validators/quantifiers.py`: a code outside
`p_to_field` yields the empty list; a missing attribute yields the empty
list; `None` yields the empty list; a list value is returned as is; any
other value is wrapped in a one-element list. -/
def _get_property_values (entity : CRMEntity) (p_code : String) : List String :=
  match assocFind p_code p_to_field with
  | none => []
  | some field_name =>
    match assocFind field_name entity.attrs with
    | none => []
    | some PyVal.pynone => []
    | some (PyVal.pystr s) => [s]
    | some (PyVal.pylist xs) => xs

/-- The message produced by the exception handlers in
`validate_entity_quantifiers`: `str(e)` for a caught validation error or
warning, and the "Error validating property" wrapper for any other caught
exception (here: the `ValueError` from `_parse_quantifier`). -/
def caughtMessage (p_code : String) : PyExc → String
  | .validationError msg => msg
  | .valueError msg => "Error validating property " ++ p_code ++ ": " ++ msg

/-- The body of the `try` block in the per-property loop of
`validate_entity_quantifiers`: read the property values off the entity and
enforce the quantifier. -/
def checkProperty (entity : CRMEntity) (p_code : String)
    (severity : ValidationSeverity) : Except PyExc Unit :=
  enforce_quantifier entity p_code (_get_property_values entity p_code) severity

/-- The per-property loop of `validate_entity_quantifiers`: every
exception raised while checking one property is caught and converted to a
message, and the loop continues with the remaining property codes. -/
def validateProps (entity : CRMEntity) (severity : ValidationSeverity) :
    List String → List String
  | [] => []
  | p_code :: rest =>
    match checkProperty entity p_code severity with
    | .ok _ => validateProps entity severity rest
    | .error e => caughtMessage p_code e :: validateProps entity severity rest

/-- Embedding of `DOMAIN.get(entity.class_code, [])`: the property codes applicable to
the class of the entity. -/
def applicable_properties (entity : CRMEntity) : List String :=
  (assocFind entity.class_code DOMAIN_list).getD []

/-- Embedding of `validate_entity_quantifiers` from
`validators/quantifiers.py`. -/
def validate_entity_quantifiers (entity : CRMEntity)
    (severity : ValidationSeverity) : List String :=
  validateProps entity severity (applicable_properties entity)

/-- Embedding of `validate_batch_quantifiers` from
`validators/quantifiers.py`: run the
per-entity check for every entity and record only entities with a
non-empty message list, keyed by entity id. -/
def validate_batch_quantifiers (entities : List CRMEntity)
    (severity : ValidationSeverity) : List (String × List String) :=
  entities.foldr
    (fun entity results =>
      let messages := validate_entity_quantifiers entity severity
      if messages.isEmpty then results else (entity.id, messages) :: results)
    []

/-- One `shortcuts` entry of a YAML class spec consumed by
`generate_models.py`. -/
structure ShortcutSpec where
  property : String
  alias_field : String
deriving DecidableEq, Repr

/-- One class record of the declarative schema consumed by
`generate_models.py` `generate_class_model`. -/
structure ClassSpec where
  code : String
  label : String
  abstract : Bool := false
  parents : List String := []
  canonical_fields : List String := []
  shortcuts : List ShortcutSpec := []
deriving DecidableEq, Repr

/-- The semantic content of the Python class definition string assembled
by `generate_class_model`: the generated class name, the name referenced
as its parent, the class code, and the generated shortcut field names. -/
structure ClassModel where
  class_name : String
  parent_class : String
  class_code : String
  shortcut_fields : List String
  canonical_fields : List String
  abstract_doc : Bool
deriving DecidableEq, Repr

/-- Python `s.replace(old, "")` for a single-character `old`: removing
every occurrence of that character. -/
def removeChar (c : Char) (s : List Char) : List Char :=
  s.filter (fun x => x ≠ c)

/-- The label-to-identifier derivation of `generate_class_model`:
`label.replace(" ", "").replace("-", "")`, i.e. removal of every space and
every hyphen. -/
def stripLabel (label : String) : String :=
  String.mk (removeChar '-' (removeChar ' ' label.data))

/-- Embedding of `generate_class_model` from
`codegen/generate_models.py`: the class name is
"E" + code + "_" + stripped label; the parent reference is
"E" + parents[0] + "_" + stripped label of the class ITSELF when the
parents list is non-empty (this is exactly what line 48 of the source
computes), else the base class "CRMEntity"; shortcut fields become
optional string fields named by `alias_field`.  The function is total: it
has no failure path. -/
def generate_class_model (class_spec : ClassSpec) : ClassModel :=
  let class_name := "E" ++ class_spec.code ++ "_" ++ stripLabel class_spec.label
  let parent_class :=
    match class_spec.parents with
    | parent0 :: _ => "E" ++ parent0 ++ "_" ++ stripLabel class_spec.label
    | [] => "CRMEntity"
  { class_name := class_name
    parent_class := parent_class
    class_code := class_spec.code
    shortcut_fields := class_spec.shortcuts.map (fun s => s.alias_field)
    canonical_fields := class_spec.canonical_fields
    abstract_doc := class_spec.abstract }

/-- The class spec for E1 as evidenced by the generated
`models/generated/e_classes.py` (class `EE1_CRMEntity`, docstring
"CIDOC CRM E1: CRM Entity (Abstract)", no parent). -/
def classSpecE1 : ClassSpec :=
  { code := "E1", label := "CRM Entity", abstract := true,
    parents := [], canonical_fields := ["label", "type", "notes"], shortcuts := [] }

/-- The class spec for E2 as evidenced by the generated
`models/generated/e_classes.py` (class `EE2_TemporalEntity`, docstring
"CIDOC CRM E2: Temporal Entity (Abstract)", parent class code E1). -/
def classSpecE2 : ClassSpec :=
  { code := "E2", label := "Temporal Entity", abstract := true,
    parents := ["E1"], canonical_fields := ["label", "type", "notes"], shortcuts := [] }

/-- The single-inheritance parent table of the class hierarchy, child
class code to parent class code, transcribed from the generated
`models/generated/e_classes.py` (each generated class `EEn_X(EEm_Y)`
records parent code Em for class code En; E1 is the root and has no
entry). -/
def CLASS_PARENTS : List (String × String) := [
  ("E2", "E1"), ("E3", "E2"), ("E4", "E2"), ("E5", "E2"), ("E6", "E5"),
  ("E7", "E5"), ("E8", "E7"), ("E9", "E7"), ("E10", "E7"), ("E11", "E7"),
  ("E12", "E7"), ("E13", "E7"), ("E14", "E13"), ("E15", "E13"), ("E16", "E13"),
  ("E17", "E13"), ("E18", "E1"), ("E19", "E18"), ("E20", "E19"), ("E21", "E20"),
  ("E22", "E19"), ("E23", "E1"), ("E24", "E18"), ("E25", "E24"), ("E26", "E18"),
  ("E27", "E26"), ("E28", "E23"), ("E29", "E28"), ("E30", "E28"), ("E31", "E28"),
  ("E32", "E31"), ("E33", "E28"), ("E34", "E33"), ("E35", "E33"), ("E36", "E28"),
  ("E37", "E36"), ("E38", "E36"), ("E39", "E1"), ("E40", "E39"), ("E41", "E28"),
  ("E42", "E28"), ("E43", "E1"), ("E44", "E41"), ("E45", "E44"), ("E46", "E43"),
  ("E47", "E28"), ("E48", "E44"), ("E49", "E41"), ("E50", "E49"), ("E51", "E45"),
  ("E52", "E1"), ("E53", "E43"), ("E54", "E28"), ("E55", "E28"), ("E56", "E55"),
  ("E57", "E55"), ("E58", "E55"), ("E59", "E1"), ("E60", "E59"), ("E61", "E59"),
  ("E62", "E59"), ("E63", "E5"), ("E64", "E5"), ("E65", "E63"), ("E66", "E63"),
  ("E67", "E66"), ("E68", "E64"), ("E69", "E64"), ("E70", "E1"), ("E71", "E70"),
  ("E72", "E70"), ("E73", "E70"), ("E74", "E39"), ("E75", "E41"), ("E76", "E42"),
  ("E77", "E1"), ("E78", "E77"), ("E79", "E11"), ("E80", "E11"), ("E81", "E11"),
  ("E82", "E75"), ("E83", "E65"), ("E84", "E73"), ("E85", "E7"), ("E86", "E7"),
  ("E87", "E7"), ("E88", "E28"), ("E89", "E88"), ("E90", "E28"), ("E91", "E90"),
  ("E92", "E1"), ("E93", "E92"), ("E94", "E92"), ("E95", "E59"), ("E96", "E92"),
  ("E97", "E28"), ("E98", "E55"), ("E99", "E55")]

/-- Fuel-bounded parent chase used by `ancestorsOf`. -/
def ancestorsAux : Nat → String → List String
  | 0, _ => []
  | fuel + 1, c =>
    c :: (match assocFind c CLASS_PARENTS with
          | some parent => ancestorsAux fuel parent
          | none => [])

/-- Modelled from the spec: the registry operation
`ancestorsOf(classCode)` of section 4.1 ("the class itself followed by
each parent up to the root"), computed over the parent table transcribed
from the generated models.  The fuel bound exceeds the table size, so
every chain terminates at the root or at the first code without a parent
entry. -/
def ancestorsOf (class_code : String) : List String :=
  ancestorsAux (CLASS_PARENTS.length + 1) class_code

/-- Modelled from the spec: `validate_domain_range_alignment` of
`collie/validators/typing_rules.py`, whose source file is not part of the
repository snapshot (only its unit and golden tests are).  Section 4.4 of
the specification defines it: IGNORE is a no-op (severity handling
identical to the quantifier validator); an unknown property code is itself
a violation; the source is compatible with the declared domain iff the
domain appears in `ancestorsOf(source.classCode)`, and likewise the target
with the declared range; each failed check goes through the same
severity-dependent violation handling (WARN logs, RAISE fails). -/
def validate_domain_range_alignment (source target : CRMEntity)
    (p_code : String) (severity : ValidationSeverity) : Except PyExc Unit :=
  if severity = .ignore then .ok ()
  else
    match assocFind p_code P_list with
    | none =>
      _handle_violation ("Unknown property code: " ++ p_code) severity source p_code
    | some spec =>
      let step1 : Except PyExc Unit :=
        if spec.domain ∈ ancestorsOf source.class_code then .ok ()
        else
          _handle_violation ("Source class " ++ source.class_code
            ++ " not compatible with domain " ++ spec.domain
            ++ " for property " ++ p_code) severity source p_code
      match step1 with
      | .error e => .error e
      | .ok _ =>
        if spec.range ∈ ancestorsOf target.class_code then .ok ()
        else
          _handle_violation ("Target class " ++ target.class_code
            ++ " not compatible with range " ++ spec.range
            ++ " for property " ++ p_code) severity target p_code

/-- A clean E22 entity mirroring the unit and golden tests: one value in
the P108 shortcut field `produced_by`, which satisfies quantifier 0..1. -/
def cleanEntity : CRMEntity :=
  { id := "obj_001", class_code := "E22",
    attrs := [("produced_by", PyVal.pystr "prod_001")] }

/-- An E22 entity whose P108 shortcut field `produced_by` holds two
values, violating quantifier 0..1. -/
def violEntity : CRMEntity :=
  { id := "obj_bad", class_code := "E22",
    attrs := [("produced_by", PyVal.pylist ["prod_001", "prod_002"])] }

/-- An E12 production-event entity mirroring the unit and golden tests. -/
def prodEntity : CRMEntity :=
  { id := "prod_001", class_code := "E12", attrs := [] }

/-- The ten property codes that `p_to_field` maps to entity fields. -/
def tenCodes : List String := p_to_field.map Prod.fst

/-- Decidable whole-registry check for inverse symmetry: for every entry
`(p, spec)` of `P_list`, the registry contains `spec.inverse` and the
inverse of that entry is `p` again. -/
def inverseCheck : Bool :=
  P_list.all (fun pr =>
    match assocFind pr.2.inverse P_list with
    | some ispec => ispec.inverse == pr.1
    | none => false)

/-- Decidable whole-registry check that every stored quantifier parses and
has min at most max whenever max is bounded. -/
def quantifierBoundCheck : Bool :=
  P_list.all (fun pr =>
    match _parse_quantifier pr.2.quantifier with
    | .ok (mn, some mx) => decide (mn ≤ mx)
    | .ok (_, none) => true
    | .error _ => false)

/-- Decidable check over all codes listed in `DOMAIN`: each resolves in
the registry to a quantifier that parses with minimum at most 0 and a
non-negative maximum when bounded (so a value count of zero can never
violate it). -/
def emptyValuesCheck : Bool :=
  allDomainCodes.all (fun p =>
    match assocFind p P_list with
    | none => true
    | some spec =>
      match _parse_quantifier spec.quantifier with
      | .ok (mn, none) => decide (mn ≤ 0)
      | .ok (mn, some mx) => decide (mn ≤ 0) && decide (0 ≤ mx)
      | .error _ => false)

/-! ## Helper lemmas -/

theorem mem_of_assocFind {α : Type} {k : String} {v : α} :
    ∀ {l : List (String × α)}, assocFind k l = some v → (k, v) ∈ l := by
  intro l
  induction l with
  | nil => intro h; simp [assocFind] at h
  | cons kv rest ih =>
    intro h
    obtain ⟨k2, v2⟩ := kv
    by_cases hk : k = k2
    · subst hk
      rw [assocFind, if_pos rfl] at h
      obtain rfl : v2 = v := Option.some.inj h
      exact List.mem_cons_self _ _
    · rw [assocFind, if_neg hk] at h
      exact List.mem_cons_of_mem _ (ih h)

theorem assocFind_eq_none {α : Type} {k : String} :
    ∀ {l : List (String × α)}, k ∉ l.map Prod.fst → assocFind k l = none := by
  intro l
  induction l with
  | nil => intro _; rfl
  | cons kv rest ih =>
    intro h
    obtain ⟨k2, v2⟩ := kv
    simp only [List.map_cons, List.mem_cons] at h
    push_neg at h
    rw [assocFind, if_neg h.1]
    exact ih h.2

/-! ## C1 -/

/-- C1: the claim states that for a class spec with a non-empty parents
list the generator emits a parent reference naming the descriptor
previously generated for the parent class, or fails loudly on a forward
reference.  The code does neither: evaluated at the E2 spec (label
"Temporal Entity", parent E1), `generate_class_model` derives the parent
reference from the label of the CHILD, producing "EE1_TemporalEntity",
which differs from "EE1_CRMEntity", the name actually generated for E1
(label "CRM Entity"); the function is total and never fails.  This is
exactly the broken `class EE2_TemporalEntity(EE1_TemporalEntity)` visible
in the generated `models/generated/e_classes.py`. -/
theorem c1_generate_class_model_failing_input :
    (generate_class_model classSpecE2).parent_class = "EE1_TemporalEntity" ∧
    (generate_class_model classSpecE1).class_name = "EE1_CRMEntity" ∧
    (generate_class_model classSpecE2).parent_class ≠
      (generate_class_model classSpecE1).class_name := by
  refine ⟨rfl, rfl, ?_⟩
  decide

/-! ## C2 -/

/-- C2: for every entity whose class code is "E22" (the declared domain of
P108, quantifier "0..1"), `enforce_quantifier` under RAISE severity
returns normally on an empty value list and on any one-element value
list, and raises a `CRMValidationError` on any two-element value list. -/
theorem c2_enforce_quantifier_boundary (e : CRMEntity)
    (h : e.class_code = "E22") :
    enforce_quantifier e "P108" [] ValidationSeverity.raise = .ok () ∧
    (∀ v : String,
      enforce_quantifier e "P108" [v] ValidationSeverity.raise = .ok ()) ∧
    (∀ v1 v2 : String, ∃ msg,
      enforce_quantifier e "P108" [v1, v2] ValidationSeverity.raise =
        .error (.validationError msg)) := by
  obtain ⟨i, cc, attrs⟩ := e
  obtain rfl : cc = "E22" := h
  exact ⟨rfl, fun v => rfl, fun v1 v2 => ⟨_, rfl⟩⟩

/-- Witness for C2 at a concrete entity. -/
theorem c2_witness :
    cleanEntity.class_code = "E22" ∧
    enforce_quantifier cleanEntity "P108" [] ValidationSeverity.raise = .ok () ∧
    (∀ v : String,
      enforce_quantifier cleanEntity "P108" [v] ValidationSeverity.raise = .ok ()) ∧
    (∀ v1 v2 : String, ∃ msg,
      enforce_quantifier cleanEntity "P108" [v1, v2] ValidationSeverity.raise =
        .error (.validationError msg)) :=
  ⟨rfl, c2_enforce_quantifier_boundary cleanEntity rfl⟩

/-! ## C3 -/

/-- C3 counterexample: the claim states that adding one entity with
exactly one violating property to a clean batch makes
`validate_batch_quantifiers` under WARN severity return a map with
exactly one key.  On the code this is false: `violEntity` really violates
P108 (two values against quantifier "0..1"; under RAISE the per-property
check raises), yet the WARN-severity batch result is still empty, because
a WARN violation goes through `warnings.warn`, which is not an exception,
so `validate_entity_quantifiers` collects no message. -/
theorem c3_counterexample :
    validate_batch_quantifiers [cleanEntity] ValidationSeverity.warn = [] ∧
    (∃ msg, checkProperty violEntity "P108" ValidationSeverity.raise =
      .error (.validationError msg)) ∧
    validate_batch_quantifiers [cleanEntity, violEntity]
      ValidationSeverity.warn = [] :=
  ⟨rfl, ⟨_, rfl⟩, rfl⟩

/-- C3 amended: a clean batch yields an empty map under WARN; adding the
violating entity still yields an empty map under WARN (the violating call
does not raise, and warnings are not collected into the map); under RAISE
severity the same addition adds exactly one key, the id of the violating
entity, whose message list has exactly one entry, one per violated
property of that entity. -/
theorem c3_amended_batch_behaviour :
    validate_batch_quantifiers [cleanEntity] ValidationSeverity.warn = [] ∧
    validate_batch_quantifiers [cleanEntity, violEntity]
      ValidationSeverity.warn = [] ∧
    validate_batch_quantifiers [cleanEntity, violEntity]
      ValidationSeverity.raise =
      [("obj_bad",
        ["Property P108 allows at most 1 values, got 2 (Entity: obj_bad, Class: E22)"])] :=
  ⟨rfl, rfl, rfl⟩

/-! ## C5 -/

/-- C5: for every entity, value list and severity, if the property code
is known to the registry and the class code of the entity differs from
the declared domain of the property, `enforce_quantifier` returns
normally, recording no violation, regardless of value count or
severity. -/
theorem c5_domain_mismatch_skips (e : CRMEntity) (p_code : String)
    (values : List String) (severity : ValidationSeverity) (spec : PropSpec)
    (hfind : assocFind p_code P_list = some spec)
    (hdom : e.class_code ≠ spec.domain) :
    enforce_quantifier e p_code values severity = .ok () := by
  unfold enforce_quantifier
  rw [hfind]
  by_cases hsev : severity = ValidationSeverity.ignore
  · simp [hsev]
  · simp [hsev, hdom]

/-- Witness for C5: an E22 entity probed with P4 (domain E2) and three
values under RAISE severity. -/
theorem c5_witness :
    cleanEntity.class_code ≠ "E2" ∧
    enforce_quantifier cleanEntity "P4" ["a", "b", "c"]
      ValidationSeverity.raise = .ok () :=
  ⟨by decide,
   c5_domain_mismatch_skips cleanEntity "P4" ["a", "b", "c"]
     ValidationSeverity.raise
     ⟨"has time-span", "E2", "E52", "P4i", "0..1", ["HAS_TIME_SPAN"],
      "Associates a temporal entity with its time-span"⟩
     (by rfl) (by decide)⟩

/-! ## C7 -/

theorem inverseCheck_true : inverseCheck = true := by decide

/-- C7: for every property code present in the registry, its inverse code
is itself present in the registry and the inverse of the inverse entry is
the original code (inverse lookup is an involution over the whole
registry). -/
theorem c7_inverse_involution (p : String) (spec : PropSpec)
    (h : assocFind p P_list = some spec) :
    ∃ ispec, assocFind spec.inverse P_list = some ispec ∧
      ispec.inverse = p := by
  have hmem : (p, spec) ∈ P_list := mem_of_assocFind h
  have hx := List.all_eq_true.mp inverseCheck_true (p, spec) hmem
  dsimp only at hx
  cases hfind : assocFind spec.inverse P_list with
  | none => rw [hfind] at hx; simp at hx
  | some ispec =>
    rw [hfind] at hx
    simp only [beq_iff_eq] at hx
    exact ⟨ispec, rfl, hx⟩

/-- Witness for C7 at P108: the registry resolves its inverse P108i, and
the inverse of P108i is P108 again. -/
theorem c7_witness :
    ∃ ispec, assocFind "P108i" P_list = some ispec ∧
      ispec.inverse = "P108" :=
  c7_inverse_involution "P108"
    ⟨"was produced by", "E22", "E12", "P108i", "0..1", ["WAS_PRODUCED_BY"],
     "Links a human-made object to its production event"⟩ (by rfl)

/-! ## C8 -/

theorem quantifierBoundCheck_true : quantifierBoundCheck = true := by decide

/-- C8: every quantifier string stored in the registry parses successfully
into a pair of an integer minimum and an integer-or-unbounded maximum with
minimum at most maximum whenever the maximum is bounded; in particular the
parse-failure branch of `_parse_quantifier` is unreachable for
registry-stored quantifiers. -/
theorem c8_registry_quantifiers_parse (p : String) (spec : PropSpec)
    (h : assocFind p P_list = some spec) :
    ∃ mn mx, _parse_quantifier spec.quantifier = .ok (mn, mx) ∧
      ∀ b, mx = some b → mn ≤ b := by
  have hmem : (p, spec) ∈ P_list := mem_of_assocFind h
  have hx := List.all_eq_true.mp quantifierBoundCheck_true (p, spec) hmem
  dsimp only at hx
  cases hparse : _parse_quantifier spec.quantifier with
  | error e => rw [hparse] at hx; simp at hx
  | ok pr =>
    obtain ⟨mn, mx⟩ := pr
    refine ⟨mn, mx, rfl, ?_⟩
    intro b hb
    subst hb
    rw [hparse] at hx
    simpa using hx

/-- Witness for C8 at P108 (quantifier "0..1"). -/
theorem c8_witness :
    ∃ mn mx, _parse_quantifier "0..1" = .ok (mn, mx) ∧
      ∀ b, mx = some b → mn ≤ b :=
  c8_registry_quantifiers_parse "P108"
    ⟨"was produced by", "E22", "E12", "P108i", "0..1", ["WAS_PRODUCED_BY"],
     "Links a human-made object to its production event"⟩ (by rfl)

/-! ## C9 -/

theorem validateProps_append (e : CRMEntity) (severity : ValidationSeverity)
    (l1 l2 : List String) :
    validateProps e severity (l1 ++ l2) =
      validateProps e severity l1 ++ validateProps e severity l2 := by
  induction l1 with
  | nil => rfl
  | cons p rest ih =>
    simp only [List.cons_append, validateProps]
    cases checkProperty e p severity <;> simp [ih]

/-- C9: `validate_entity_quantifiers` never propagates an exception: an
exception raised while checking one applicable property (here: the
property at an arbitrary position of the applicable-property list) is
caught, converted to a message placed at that position of the returned
list, and checking continues with the remaining applicable properties,
whose messages follow as if the failing property were checked alone. -/
theorem c9_errors_caught_and_continue (e : CRMEntity)
    (severity : ValidationSeverity) (l1 l2 : List String) (p_code : String)
    (exc : PyExc)
    (happ : applicable_properties e = l1 ++ p_code :: l2)
    (herr : checkProperty e p_code severity = .error exc) :
    validate_entity_quantifiers e severity =
      validateProps e severity l1 ++
        caughtMessage p_code exc :: validateProps e severity l2 := by
  unfold validate_entity_quantifiers
  rw [happ, validateProps_append]
  congr 1
  simp [validateProps, herr]

/-- Witness for C9: the violating E22 entity under RAISE severity; its
single applicable property P108 raises, the exception is caught, and the
validation returns the converted message instead of propagating. -/
theorem c9_witness :
    validate_entity_quantifiers violEntity ValidationSeverity.raise =
      validateProps violEntity ValidationSeverity.raise [] ++
        caughtMessage "P108"
          (PyExc.validationError
            "Property P108 allows at most 1 values, got 2 (Entity: obj_bad, Class: E22)") ::
          validateProps violEntity ValidationSeverity.raise [] :=
  c9_errors_caught_and_continue violEntity ValidationSeverity.raise [] []
    "P108"
    (PyExc.validationError
      "Property P108 allows at most 1 values, got 2 (Entity: obj_bad, Class: E22)")
    rfl rfl

/-! ## C10 -/

theorem emptyValuesCheck_true : emptyValuesCheck = true := by decide

theorem enforce_unknown_ok (e : CRMEntity) (p_code : String)
    (severity : ValidationSeverity)
    (hfind : assocFind p_code P_list = none) :
    enforce_quantifier e p_code [] severity = .ok () := by
  unfold enforce_quantifier
  rw [hfind]
  by_cases hsev : severity = ValidationSeverity.ignore <;> simp [hsev]

theorem enforce_empty_ok (e : CRMEntity) (p_code : String)
    (severity : ValidationSeverity) (spec : PropSpec) (mn : Int)
    (mx : Option Int)
    (hfind : assocFind p_code P_list = some spec)
    (hparse : _parse_quantifier spec.quantifier = .ok (mn, mx))
    (hmn : mn ≤ 0) (hmx : ∀ b, mx = some b → 0 ≤ b) :
    enforce_quantifier e p_code [] severity = .ok () := by
  unfold enforce_quantifier
  rw [hfind]
  by_cases hsev : severity = ValidationSeverity.ignore
  · simp [hsev]
  · rw [if_neg hsev]
    by_cases hdom : e.class_code ≠ spec.domain
    · simp [hdom]
    · have hlt : ¬((0 : Int) < mn) := not_lt.mpr hmn
      cases mx with
      | none => simp [hdom, hparse, hlt]
      | some b =>
        have hgt : ¬((0 : Int) > b) := not_lt.mpr (hmx b rfl)
        simp [hdom, hparse, hlt, hgt]

/-- C10: for every entity and every property code outside the fixed
ten-code `p_to_field` set, `_get_property_values` returns the empty list;
consequently, for every such code listed in the `DOMAIN` index, the
per-property check of `validate_entity_quantifiers` runs against a value
count of zero and, because every registry quantifier has minimum 0 (and a
non-negative maximum when bounded), never reports a violation. -/
theorem c10_unmapped_codes_never_violate (e : CRMEntity)
    (severity : ValidationSeverity) (p_code : String)
    (hnot : p_code ∉ tenCodes) :
    _get_property_values e p_code = [] ∧
    (p_code ∈ allDomainCodes →
      checkProperty e p_code severity = .ok ()) := by
  have hnone : assocFind p_code p_to_field = none := assocFind_eq_none hnot
  have hvals : _get_property_values e p_code = [] := by
    unfold _get_property_values
    rw [hnone]
  refine ⟨hvals, fun hdom => ?_⟩
  unfold checkProperty
  rw [hvals]
  have hx := List.all_eq_true.mp emptyValuesCheck_true p_code hdom
  cases hfind : assocFind p_code P_list with
  | none => exact enforce_unknown_ok e p_code severity hfind
  | some spec =>
    simp only [hfind] at hx
    cases hparse : _parse_quantifier spec.quantifier with
    | error exc =>
      simp only [hparse] at hx
      exact absurd hx (by decide)
    | ok pr =>
      obtain ⟨mn, mx⟩ := pr
      simp only [hparse] at hx
      cases mx with
      | none =>
        simp only [decide_eq_true_eq] at hx
        exact enforce_empty_ok e p_code severity spec mn none hfind hparse hx
          (fun b hb => by cases hb)
      | some b =>
        simp only [Bool.and_eq_true, decide_eq_true_eq] at hx
        exact enforce_empty_ok e p_code severity spec mn (some b) hfind hparse
          hx.1 (fun b2 hb2 => by cases hb2; exact hx.2)

/-- Witness for C10: the inverse code P108i is outside the ten-code set
but listed in `DOMAIN` under E12; on any entity (here the clean E22
entity) it yields no values and its check passes. -/
theorem c10_witness :
    ("P108i" ∉ tenCodes) ∧ ("P108i" ∈ allDomainCodes) ∧
    (_get_property_values cleanEntity "P108i" = [] ∧
      ("P108i" ∈ allDomainCodes →
        checkProperty cleanEntity "P108i" ValidationSeverity.warn = .ok ())) :=
  ⟨by decide, by decide,
   c10_unmapped_codes_never_violate cleanEntity ValidationSeverity.warn
     "P108i" (by decide)⟩

/-! ## C4 -/

theorem alignment_ok_iff (source target : CRMEntity) (p_code : String)
    (spec : PropSpec) (hfind : assocFind p_code P_list = some spec) :
    validate_domain_range_alignment source target p_code
        ValidationSeverity.raise = .ok () ↔
      spec.domain ∈ ancestorsOf source.class_code ∧
      spec.range ∈ ancestorsOf target.class_code := by
  unfold validate_domain_range_alignment
  rw [hfind]
  by_cases hs : spec.domain ∈ ancestorsOf source.class_code
  · by_cases ht : spec.range ∈ ancestorsOf target.class_code
    · simp [hs, ht]
    · simp [hs, ht, _handle_violation]
  · by_cases ht : spec.range ∈ ancestorsOf target.class_code
    · simp [hs, ht, _handle_violation]
    · simp [hs, ht, _handle_violation]

/-- C4: the typing validator treats an unknown property code as a
violation, and for a known property passes exactly when the declared
domain appears in the ancestor chain of the class of the source and the
declared range appears in the ancestor chain of the class of the target;
concretely for P108 (domain E22, range E12): an E22 source with an E12
target passes under RAISE, the same call with an E22 target raises, and a
target whose class descends from (or equals) E12 passes. -/
theorem c4_domain_range_alignment (source target : CRMEntity)
    (p_code : String) :
    (assocFind p_code P_list = none →
      ∃ msg, validate_domain_range_alignment source target p_code
        ValidationSeverity.raise = .error (.validationError msg)) ∧
    (∀ spec, assocFind p_code P_list = some spec →
      (validate_domain_range_alignment source target p_code
          ValidationSeverity.raise = .ok () ↔
        spec.domain ∈ ancestorsOf source.class_code ∧
        spec.range ∈ ancestorsOf target.class_code)) ∧
    (source.class_code = "E22" → target.class_code = "E12" →
      validate_domain_range_alignment source target "P108"
        ValidationSeverity.raise = .ok ()) ∧
    (source.class_code = "E22" → target.class_code = "E22" →
      ∃ msg, validate_domain_range_alignment source target "P108"
        ValidationSeverity.raise = .error (.validationError msg)) ∧
    (source.class_code = "E22" → "E12" ∈ ancestorsOf target.class_code →
      validate_domain_range_alignment source target "P108"
        ValidationSeverity.raise = .ok ()) := by
  refine ⟨?_, ?_, ?_, ?_, ?_⟩
  · intro hnone
    unfold validate_domain_range_alignment
    rw [hnone]
    exact ⟨_, rfl⟩
  · intro spec hfind
    exact alignment_ok_iff source target p_code spec hfind
  · intro h1 h2
    obtain ⟨si, sc, sa⟩ := source
    obtain ⟨ti, tc, ta⟩ := target
    obtain rfl : sc = "E22" := h1
    obtain rfl : tc = "E12" := h2
    rfl
  · intro h1 h2
    obtain ⟨si, sc, sa⟩ := source
    obtain ⟨ti, tc, ta⟩ := target
    obtain rfl : sc = "E22" := h1
    obtain rfl : tc = "E22" := h2
    exact ⟨_, rfl⟩
  · intro h1 hmem
    refine (alignment_ok_iff source target "P108"
      ⟨"was produced by", "E22", "E12", "P108i", "0..1", ["WAS_PRODUCED_BY"],
       "Links a human-made object to its production event"⟩ (by rfl)).mpr
      ⟨?_, hmem⟩
    rw [h1]
    decide

/-- Witness for C4: the concrete entities of the repository tests; the
E22 source with E12 target passes under RAISE, and the same source with
an E22 target raises a validation error. -/
theorem c4_witness :
    validate_domain_range_alignment cleanEntity prodEntity "P108"
      ValidationSeverity.raise = .ok () ∧
    (∃ msg, validate_domain_range_alignment cleanEntity cleanEntity "P108"
      ValidationSeverity.raise = .error (.validationError msg)) :=
  ⟨(c4_domain_range_alignment cleanEntity prodEntity "P108").2.2.1 rfl rfl,
   (c4_domain_range_alignment cleanEntity cleanEntity "P108").2.2.2.1 rfl rfl⟩

/-! ## C6 -/

end Collie
